import Mathlib

/-!
# The `init` subcommand of lyra (`cmd/lyra/cmd/init_mock.go`)

A shallow embedding of `NewInitCmd`, `runInit` and `getKubeHost`, together
with the parts of the libraries they call: `path/filepath` (`Join`, `Clean`
on Unix), `spf13/pflag` (flag registration and argument parsing),
`spf13/cobra` (the command object) and `spf13/viper` (the configuration
store).  Go strings are Lean strings; a Go pointer to a `pflag.Flag` is an
address into a heap of flags kept in the program state; a Go panic is the
`error` case of `Except`.

What the libraries do outside the use this file makes of them is left out:
`pflag` runs with its defaults (identity name normalisation, interspersed
arguments, no whitelist of unknown flags), `viper` keys have no delimiter and
no alias, and `strings.ToLower` acts on ASCII letters.  The home directory,
the kubeconfig loader, `strconv.ParseInt` and the two templates of
`pkg/strings` are parameters, collected in `Env`.
-/

namespace Lyra

/-! ## path/filepath (Unix) -/

/-- The test `os.IsPathSeparator` on Unix. -/
def isPathSeparator (c : Char) : Bool := c == '/'

/-- The inner loop of the `..` case of `filepath.Clean`: starting from the
write index `w`, step back while `w > dotdot` and `buf[w]` is not a
separator. -/
def cleanBacktrack (buf : List Char) (dotdot : Nat) : Nat → Nat
  | 0 => 0
  | w + 1 =>
    if w + 1 > dotdot && !isPathSeparator (buf.getD (w + 1) '/') then
      cleanBacktrack buf dotdot w
    else w + 1

/-- The main loop of `filepath.Clean`: `r` is the index of the next byte of
`path` to process, `out` the bytes written so far (its length is the `w` of
the Go code) and `dotdot` the index where `..` must stop.  Every iteration
advances `r`, so `path.length` units of fuel are enough. -/
def cleanLoop (path : List Char) (rooted : Bool) :
    Nat → Nat → Nat → List Char → List Char
  | 0, _, _, out => out
  | fuel + 1, r, dotdot, out =>
    let n := path.length
    if r < n then
      if isPathSeparator (path.getD r '/') then
        -- empty path element
        cleanLoop path rooted fuel (r + 1) dotdot out
      else if path.getD r '/' == '.' &&
          (r + 1 == n || isPathSeparator (path.getD (r + 1) '/')) then
        -- . element
        cleanLoop path rooted fuel (r + 1) dotdot out
      else if path.getD r '/' == '.' && path.getD (r + 1) '/' == '.' &&
          (r + 2 == n || isPathSeparator (path.getD (r + 2) '/')) then
        -- .. element: remove to last separator
        if out.length > dotdot then
          cleanLoop path rooted fuel (r + 2) dotdot
            (out.take (cleanBacktrack out dotdot (out.length - 1)))
        else if !rooted then
          let out1 := if out.length > 0 then out ++ ['/'] else out
          let out2 := out1 ++ ['.', '.']
          cleanLoop path rooted fuel (r + 2) out2.length out2
        else
          cleanLoop path rooted fuel (r + 2) dotdot out
      else
        -- real path element: add slash if needed, then copy the element
        let out1 :=
          if (rooted && out.length != 1) || (!rooted && out.length != 0) then
            out ++ ['/']
          else out
        let elem := (path.drop r).takeWhile (fun c => !isPathSeparator c)
        cleanLoop path rooted fuel (r + elem.length) dotdot (out1 ++ elem)
    else out

/-- The function `filepath.Clean` on Unix (no volume names). -/
def Clean (path : String) : String :=
  let p := path.data
  if p.isEmpty then "."
  else
    let rooted := isPathSeparator (p.getD 0 '/')
    let out :=
      if rooted then cleanLoop p rooted p.length 1 1 ['/']
      else cleanLoop p rooted p.length 0 0 []
    if out.length == 0 then "." else String.mk out

/-- The function `strings.Join`. -/
def stringsJoin : List String → String → String
  | [], _ => ""
  | [a], _ => a
  | a :: b :: rest, sep => a ++ sep ++ stringsJoin (b :: rest) sep

/-- The function `filepath.Join` on Unix: the elements from the first
non-empty one on are joined with the separator and the result is cleaned. -/
def filepathJoin : List String → String
  | [] => ""
  | e :: rest =>
    if e != "" then Clean (stringsJoin (e :: rest) "/")
    else filepathJoin rest

/-! ## The package-level variables of `init_mock.go` -/

/-- The package-level variables `connectiontimeout`, `host`, `kubeconfig`,
`kubecontext` and `kubenamespace`. -/
structure Globals where
  connectiontimeout : Int
  host : String
  kubeconfig : String
  kubecontext : String
  kubenamespace : String
  deriving DecidableEq, Repr

/-- A pointer to one of the package-level `string` variables. -/
inductive StrVar where
  | host
  | kubeconfig
  | kubecontext
  | kubenamespace
  deriving DecidableEq, Repr

/-- A pointer to one of the package-level `int` variables. -/
inductive IntVar where
  | connectiontimeout
  deriving DecidableEq, Repr

/-- Read through a `*string`. -/
def Globals.getStr (g : Globals) : StrVar → String
  | .host => g.host
  | .kubeconfig => g.kubeconfig
  | .kubecontext => g.kubecontext
  | .kubenamespace => g.kubenamespace

/-- Write through a `*string`. -/
def Globals.setStr (g : Globals) : StrVar → String → Globals
  | .host, v => { g with host := v }
  | .kubeconfig, v => { g with kubeconfig := v }
  | .kubecontext, v => { g with kubecontext := v }
  | .kubenamespace, v => { g with kubenamespace := v }

/-- Read through a `*int`. -/
def Globals.getInt (g : Globals) : IntVar → Int
  | .connectiontimeout => g.connectiontimeout

/-- Write through a `*int`. -/
def Globals.setInt (g : Globals) : IntVar → Int → Globals
  | .connectiontimeout, v => { g with connectiontimeout := v }

/-! ## spf13/pflag -/

/-- The two implementations of the interface `pflag.Value` that the command
uses: `*stringValue` and `*intValue`, each a pointer to the variable that
stores the flag's value. -/
inductive Value where
  | stringValue (p : StrVar)
  | intValue (p : IntVar)
  deriving DecidableEq, Repr

/-- The method `String` of a `pflag.Value`: the current value, printed. -/
def Value.valueString (g : Globals) : Value → String
  | .stringValue p => g.getStr p
  | .intValue p => toString (g.getInt p)

/-- The method `Type` of a `pflag.Value`. -/
def Value.valueType : Value → String
  | .stringValue _ => "string"
  | .intValue _ => "int"

/-- The method `Value.Set`; `parseInt` stands for `strconv.ParseInt(s, 0, 64)`.
A string value accepts every string. -/
def Value.Set (parseInt : String → Option Int) (g : Globals) (val : String) :
    Value → Except String Globals
  | .stringValue p => .ok (g.setStr p val)
  | .intValue p =>
    match parseInt val with
    | some i => .ok (g.setInt p i)
    | none => .error "strconv.ParseInt: parsing: invalid syntax"

/-- The struct `pflag.Flag`, with the fields the command sets or reads. -/
structure Flag where
  Name : String
  Shorthand : String
  Usage : String
  Value : Value
  DefValue : String
  Changed : Bool
  NoOptDefVal : String
  deriving DecidableEq, Repr

/-- The address of a `pflag.Flag` in the heap. -/
abbrev Addr := Nat

/-- The struct `pflag.FlagSet`: `formal` is the map from flag name to flag
(kept in registration order, as `orderedFormal` is), `shorthands` the map
from shorthand letter to flag, `args` the arguments left after the flags. -/
structure FlagSet where
  name : String
  formal : List (String × Addr)
  shorthands : List (Char × Addr)
  args : List String
  deriving DecidableEq, Repr

/-- The function `pflag.NewFlagSet`. -/
def NewFlagSet (name : String) : FlagSet :=
  { name := name, formal := [], shorthands := [], args := [] }

/-- The method `FlagSet.Lookup`: the flag of that name, `none` for Go's
`nil`. -/
def FlagSet.Lookup (f : FlagSet) (name : String) : Option Addr :=
  f.formal.lookup name

/-! ## spf13/viper -/

/-- The values an `interface{}` of the configuration store holds here. -/
inductive Any where
  | str (s : String)
  | int (i : Int)
  | bool (b : Bool)
  deriving DecidableEq, Repr

/-- The function `cast.ToString` on a value found by the store; a key with
no value gives the empty string. -/
def castToString : Option Any → String
  | some (.str s) => s
  | some (.int i) => toString i
  | some (.bool b) => if b then "true" else "false"
  | none => ""

/-- The configuration store: the sources `viper` consults for a key, in the
order of its `find`.  `env` holds the values of the environment variables
bound to a key. -/
structure Viper where
  override : List (String × Any)
  pflags : List (String × Addr)
  env : List (String × String)
  config : List (String × Any)
  kvstore : List (String × Any)
  defaults : List (String × Any)
  deriving DecidableEq, Repr

/-- Assignment `m[k] = v` on a Go map kept as an association list. -/
def mapSet {α β : Type} [BEq α] (m : List (α × β)) (k : α) (v : β) : List (α × β) :=
  (k, v) :: m.filter (fun p => !(p.1 == k))

/-- The function `strings.ToLower`, on ASCII letters. -/
def toLower (s : String) : String := String.mk (s.data.map Char.toLower)

/-- The method `Viper.BindPFlag`: a nil flag is an error and leaves the store
as it is; otherwise the flag is stored under the lower-cased key. -/
def Viper.BindPFlag (v : Viper) (key : String) (flag : Option Addr) :
    Except String Viper :=
  match flag with
  | none => .error ("flag for " ++ key ++ " is nil")
  | some a => .ok { v with pflags := mapSet v.pflags (toLower key) a }

/-! ## spf13/cobra -/

/-- The functions a command of this package can have as its `Run` field. -/
inductive RunFn where
  | runInit
  deriving DecidableEq, Repr

/-- The struct `cobra.Command`, with the fields `NewInitCmd` sets; `pflags`
is `none` until `PersistentFlags` is first called, `flags` is the set of
local flags. -/
structure Command where
  Use : String
  Example : String
  Short : String
  Long : String
  Run : Option RunFn
  SuggestFor : List String
  pflags : Option FlagSet
  flags : Option FlagSet
  helpTemplate : String
  usageTemplate : String
  deriving DecidableEq, Repr

/-- The method `Command.Name`: the first word of `Use`. -/
def Command.Name (c : Command) : String :=
  String.mk (c.Use.data.takeWhile (fun ch => ch != ' '))

/-- The method `Command.PersistentFlags`: the persistent flag set, created on
first use. -/
def Command.PersistentFlags (c : Command) : FlagSet :=
  match c.pflags with
  | some f => f
  | none => NewFlagSet c.Name

/-! ## The program state and its environment -/

/-- The struct `rest.Config` of client-go, with the field that is read. -/
structure Config where
  Host : String
  deriving DecidableEq, Repr

/-- What the program gets from outside: the home directory returned by
`homedir.HomeDir`, the kubeconfig loader `clientcmd.BuildConfigFromFlags`
(master URL, then path), `strconv.ParseInt` in base 0 and 64 bits, and the
two templates of `pkg/strings`. -/
structure Env where
  HomeDir : String
  BuildConfigFromFlags : String → String → Except String Config
  parseInt : String → Option Int
  HelpTemplate : String
  UsageTemplate : String

/-- The state of the process: the package-level variables, the heap of
`pflag.Flag` objects, the process-wide configuration store, what has been
written to standard output, and the kubeconfig paths that were loaded. -/
structure State where
  globals : Globals
  heap : List Flag
  viper : Viper
  stdout : String
  loads : List String
  deriving DecidableEq, Repr

/-! ## pflag: registering flags -/

/-- The method `FlagSet.AddFlag`, for the flag object at address `a`: it
panics when the name is already registered, when the shorthand has more than
one byte, and when the shorthand is already in use. -/
def FlagSet.AddFlag (f : FlagSet) (flag : Flag) (a : Addr) : Except String FlagSet :=
  if (f.formal.lookup flag.Name).isSome then
    .error (f.name ++ " flag redefined: " ++ flag.Name)
  else
    let f1 := { f with formal := f.formal ++ [(flag.Name, a)] }
    if flag.Shorthand == "" then .ok f1
    else if flag.Shorthand.utf8ByteSize > 1 then
      .error (flag.Shorthand ++ " shorthand is more than one ASCII character")
    else
      let c := flag.Shorthand.data.headD ' '
      match f1.shorthands.lookup c with
      | some _ => .error ("unable to redefine shorthand " ++ flag.Shorthand)
      | none => .ok { f1 with shorthands := mapSet f1.shorthands c a }

/-- The method `FlagSet.VarP` (through `VarPF`): allocate the flag, whose
`DefValue` is the printed current value, and add it to the set. -/
def FlagSet.VarP (f : FlagSet) (s : State) (value : Value)
    (name shorthand usage : String) : Except String (FlagSet × State) :=
  let flag : Flag :=
    { Name := name, Shorthand := shorthand, Usage := usage, Value := value,
      DefValue := value.valueString s.globals, Changed := false, NoOptDefVal := "" }
  match f.AddFlag flag s.heap.length with
  | .error msg => .error msg
  | .ok f1 => .ok (f1, { s with heap := s.heap ++ [flag] })

/-- The method `FlagSet.StringVarP`: `newStringValue` stores the default in
the variable, then the flag is registered. -/
def FlagSet.StringVarP (f : FlagSet) (s : State) (p : StrVar)
    (name shorthand value usage : String) : Except String (FlagSet × State) :=
  f.VarP { s with globals := s.globals.setStr p value } (.stringValue p) name shorthand usage

/-- The method `FlagSet.StringVar`: `StringVarP` with no shorthand. -/
def FlagSet.StringVar (f : FlagSet) (s : State) (p : StrVar)
    (name value usage : String) : Except String (FlagSet × State) :=
  f.StringVarP s p name "" value usage

/-- The method `FlagSet.IntVarP`. -/
def FlagSet.IntVarP (f : FlagSet) (s : State) (p : IntVar)
    (name shorthand : String) (value : Int) (usage : String) :
    Except String (FlagSet × State) :=
  f.VarP { s with globals := s.globals.setInt p value } (.intValue p) name shorthand usage

/-! ## pflag: parsing the command line -/

/-- The method `FlagSet.Set`: set the named flag from a string and mark it as
changed. -/
def FlagSet.Set (env : Env) (f : FlagSet) (s : State) (name value : String) :
    Except String State :=
  match f.formal.lookup name with
  | none => .error ("no such flag -" ++ name)
  | some a =>
    match s.heap[a]? with
    | none => .error ("no such flag -" ++ name)
    | some flag =>
      match flag.Value.Set env.parseInt s.globals value with
      | .error err =>
        .error ("invalid argument " ++ value ++ " for --" ++ flag.Name ++ " flag: " ++ err)
      | .ok g =>
        .ok { s with globals := g, heap := s.heap.set a { flag with Changed := true } }

/-- The function `strings.SplitN(name, "=", 2)`: the part before the first
`=` and, when there is one, the part after it. -/
def splitEq (name : List Char) : List Char × Option (List Char) :=
  let before := name.takeWhile (fun c => c != '=')
  if before.length < name.length then (before, some (name.drop (before.length + 1)))
  else (before, none)

/-- The method `FlagSet.parseLongArg` for the argument `s` (which starts with
`--`) and the remaining arguments `a`; it returns the arguments left. -/
def FlagSet.parseLongArg (env : Env) (f : FlagSet) (st : State) (s : String)
    (a : List String) : Except String (List String × State) :=
  let name := s.data.drop 2
  if name.length == 0 || name.headD ' ' == '-' || name.headD ' ' == '=' then
    .error ("bad flag syntax: " ++ s)
  else
    let split := splitEq name
    let name := String.mk split.1
    match f.formal.lookup name with
    | none =>
      if name == "help" then .error "pflag: help requested"
      else .error ("unknown flag: --" ++ name)
    | some addr =>
      match st.heap[addr]? with
      | none => .error ("unknown flag: --" ++ name)
      | some flag =>
        match split.2 with
        | some v =>
          -- '--flag=arg'
          (f.Set env st flag.Name (String.mk v)).map (fun st1 => (a, st1))
        | none =>
          if flag.NoOptDefVal != "" then
            -- '--flag' (arg was optional)
            (f.Set env st flag.Name flag.NoOptDefVal).map (fun st1 => (a, st1))
          else
            match a with
            | v :: rest =>
              -- '--flag arg'
              (f.Set env st flag.Name v).map (fun st1 => (rest, st1))
            | [] =>
              -- '--flag' (arg was required)
              .error ("flag needs an argument: " ++ s)

/-- The method `FlagSet.parseSingleShortArg`: it returns the shorthands left,
the arguments left and the new state. -/
def FlagSet.parseSingleShortArg (env : Env) (f : FlagSet) (st : State)
    (shorthands : List Char) (args : List String) :
    Except String (List Char × List String × State) :=
  if "test.".data.isPrefixOf shorthands then .ok ([], args, st)
  else
    let c := shorthands.headD ' '
    match f.shorthands.lookup c with
    | none =>
      if c == 'h' then .error "pflag: help requested"
      else .error ("unknown shorthand flag: " ++ String.mk [c] ++ " in -" ++ String.mk shorthands)
    | some addr =>
      match st.heap[addr]? with
      | none => .error ("unknown shorthand flag: " ++ String.mk [c] ++ " in -" ++ String.mk shorthands)
      | some flag =>
        if shorthands.length > 2 && shorthands.getD 1 ' ' == '=' then
          -- '-f=arg'
          (f.Set env st flag.Name (String.mk (shorthands.drop 2))).map (fun st1 => ([], args, st1))
        else if flag.NoOptDefVal != "" then
          -- '-f' (arg was optional)
          (f.Set env st flag.Name flag.NoOptDefVal).map (fun st1 => (shorthands.drop 1, args, st1))
        else if shorthands.length > 1 then
          -- '-farg'
          (f.Set env st flag.Name (String.mk (shorthands.drop 1))).map (fun st1 => ([], args, st1))
        else
          match args with
          | v :: rest =>
            -- '-f arg'
            (f.Set env st flag.Name v).map (fun st1 => (shorthands.drop 1, rest, st1))
          | [] =>
            -- '-f' (arg was required)
            .error ("flag needs an argument: " ++ String.mk [c] ++ " in -" ++ String.mk shorthands)

/-- The loop of `FlagSet.parseShortArg` over a series of shorthand letters;
each round calls `parseSingleShortArg` with the arguments `args` the
function was entered with, as the Go code does.  Every round shortens
`shorthands`, so its length is enough fuel. -/
def FlagSet.parseShortLoop (env : Env) (f : FlagSet) (args : List String) :
    Nat → State → List Char → List String → Except String (List String × State)
  | _, st, [], a => .ok (a, st)
  | 0, _, _ :: _, _ => .error "parseShortArg: out of fuel"
  | fuel + 1, st, c :: cs, _ =>
    match f.parseSingleShortArg env st (c :: cs) args with
    | .error err => .error err
    | .ok (shorthands, a, st1) => FlagSet.parseShortLoop env f args fuel st1 shorthands a

/-- The method `FlagSet.parseShortArg` for the argument `s` (which starts with
a single `-`). -/
def FlagSet.parseShortArg (env : Env) (f : FlagSet) (st : State) (s : String)
    (args : List String) : Except String (List String × State) :=
  let shorthands := s.data.drop 1
  f.parseShortLoop env args shorthands.length st shorthands args

/-- The method `FlagSet.parseArgs` (flags and arguments may be interspersed,
the default of `NewFlagSet`).  Every round consumes an argument, so the
number of arguments is enough fuel. -/
def FlagSet.parseArgs (env : Env) :
    Nat → FlagSet → State → List String → Except String (FlagSet × State)
  | _, f, st, [] => .ok (f, st)
  | 0, _, _, _ :: _ => .error "parseArgs: out of fuel"
  | fuel + 1, f, st, s :: args =>
    if s.data.length == 0 || s.data.headD ' ' != '-' || s.data.length == 1 then
      FlagSet.parseArgs env fuel { f with args := f.args ++ [s] } st args
    else if s.data.getD 1 ' ' == '-' then
      if s.data.length == 2 then
        -- "--" terminates the flags
        .ok ({ f with args := f.args ++ args }, st)
      else
        match f.parseLongArg env st s args with
        | .error err => .error err
        | .ok (args1, st1) => FlagSet.parseArgs env fuel f st1 args1
    else
      match f.parseShortArg env st s args with
      | .error err => .error err
      | .ok (args1, st1) => FlagSet.parseArgs env fuel f st1 args1

/-- The method `FlagSet.Parse`: the error case is the error it returns. -/
def FlagSet.Parse (env : Env) (f : FlagSet) (st : State) (arguments : List String) :
    Except String (FlagSet × State) :=
  FlagSet.parseArgs env arguments.length { f with args := [] } st arguments

/-! ## viper: reading the store -/

/-- The value `viper` takes from a bound flag: an `int` flag is converted with
`cast.ToInt` (which gives back the integer that the flag printed), any other
flag gives its printed value. -/
def flagValue (g : Globals) (flag : Flag) : Any :=
  match flag.Value with
  | .intValue p => .int (g.getInt p)
  | .stringValue p => .str (Value.valueString g (.stringValue p))

/-- The method `Viper.find` for a key without a delimiter and without an
alias: `Set` overrides first, then a bound flag that was changed on the
command line, then the environment, the configuration file, the key/value
store and the defaults, and as a last chance the bound flag's value even
though it was not changed. -/
def Viper.find (v : Viper) (heap : List Flag) (g : Globals) (lcaseKey : String) :
    Option Any :=
  let flag : Option Flag := (v.pflags.lookup lcaseKey).bind (fun a => heap[a]?)
  match v.override.lookup lcaseKey with
  | some val => some val
  | none =>
    match flag.filter (fun fl => fl.Changed) with
    | some fl => some (flagValue g fl)
    | none =>
      match v.env.lookup lcaseKey with
      | some val => some (.str val)
      | none =>
        match v.config.lookup lcaseKey with
        | some val => some val
        | none =>
          match v.kvstore.lookup lcaseKey with
          | some val => some val
          | none =>
            match v.defaults.lookup lcaseKey with
            | some val => some val
            | none => flag.map (flagValue g)

/-- The function `viper.GetString` on the process-wide store. -/
def GetString (s : State) (key : String) : String :=
  castToString (s.viper.find s.heap s.globals (toLower key))

/-- The function `viper.BindPFlag` on the process-wide store; `NewInitCmd`
discards the error it returns. -/
def BindPFlag (s : State) (key : String) (flag : Option Addr) : State :=
  match s.viper.BindPFlag key flag with
  | .ok v => { s with viper := v }
  | .error _ => s

/-! ## init_mock.go -/

/-- The function `fmt.Println` with one string operand. -/
def Println (s : State) (a : String) : State :=
  { s with stdout := s.stdout ++ a ++ "\n" }

/-- The function `getKubeHost`: load the kubeconfig (the load is recorded in
`loads`), panic with the error if there is one, and return the `Host` of the
config when it is not empty, the empty string otherwise. -/
def getKubeHost (env : Env) (s : State) (kubeconfig : String) :
    Except String (String × State) :=
  let s1 := { s with loads := s.loads ++ [kubeconfig] }
  match env.BuildConfigFromFlags "" kubeconfig with
  | .error err => .error err
  | .ok config =>
    if config.Host != "" then .ok (config.Host, s1)
    else .ok ("", s1)

/-- The function `runInit`. -/
def runInit (s : State) (_cmd : Command) (_args : List String) : State :=
  let h := GetString s "cygnus-host"
  let s := Println s ""
  let s := Println s
    ("Cygnus (the Lyra server components) has been installed into a Kubernetes cluster at " ++ h ++ ".")
  let s := Println s ""
  Println s "For more information on using Lyra with Cygnus, see https://github.com/lyraproj/docs/cygnus.md"

/-- The function `NewInitCmd`: the error case is a panic. -/
def NewInitCmd (env : Env) (s : State) : Except String (Command × State) := do
  let cmd : Command :=
    { Use := "init", Example := "init", Short := "init", Long := "init",
      Run := some .runInit, SuggestFor := ["install"],
      pflags := none, flags := none, helpTemplate := "", usageTemplate := "" }
  -- Flags for k8s
  let home := env.HomeDir
  let (pf, s) ←
    if home != "" then
      cmd.PersistentFlags.StringVar s .kubeconfig "kubeconfig"
        (filepathJoin [home, ".kube", "config"]) "absolute path to the kubeconfig file to use"
    else
      cmd.PersistentFlags.StringVar s .kubeconfig "kubeconfig" ""
        "absolute path to the kubeconfig file to use"
  let cmd := { cmd with pflags := some pf }
  let (pf, s) ← cmd.PersistentFlags.IntVarP s .connectiontimeout "cygnus-connection-timeout" "t" 300
    "the duration (in seconds) Lyra will wait to establish a connection to Cygnus"
  let cmd := { cmd with pflags := some pf }
  let (h, s) ← getKubeHost env s s.globals.kubeconfig
  let (pf, s) ← cmd.PersistentFlags.StringVar s .host "cygnus-host" h
    "Address of Cygnus (probably a Kubernetes master)"
  let cmd := { cmd with pflags := some pf }
  let (pf, s) ← cmd.PersistentFlags.StringVarP s .kubenamespace "kube-namespace" "n" "kube-system"
    "Kubernetes namespace for Cygnus"
  let cmd := { cmd with pflags := some pf }
  let (pf, s) ← cmd.PersistentFlags.StringVar s .kubecontext "kube-context" ""
    "Name of the kubeconfig context to use"
  let cmd := { cmd with pflags := some pf }
  let cmd := { cmd with helpTemplate := env.HelpTemplate }
  let cmd := { cmd with usageTemplate := env.UsageTemplate }
  let s := BindPFlag s "cygnus-host" (cmd.PersistentFlags.Lookup "cygnus-host")
  let s := BindPFlag s "cygnus-connection-timeout"
    (cmd.PersistentFlags.Lookup "cygnus-connection-timeout")
  let s := BindPFlag s "kubeconfig" (cmd.PersistentFlags.Lookup "kubeconfig")
  let s := BindPFlag s "kube-context" (cmd.PersistentFlags.Lookup "kube-context")
  let s := BindPFlag s "kube-namespace" (cmd.PersistentFlags.Lookup "kube-namespace")
  return (cmd, s)

/-! ## A concrete environment -/

/-- A kubeconfig loader over two files: `/tmp/kc` with host
`https://10.0.0.1:6443` and `/home/u/.kube/config` with host
`https://192.168.0.9:6443`; every other path fails to load. -/
def exampleLoad (_masterUrl : String) (path : String) : Except String Config :=
  if path == "/tmp/kc" then .ok { Host := "https://10.0.0.1:6443" }
  else if path == "/home/u/.kube/config" then .ok { Host := "https://192.168.0.9:6443" }
  else .error "stat: no such file or directory"

/-- An environment whose home directory is `/home/u`. -/
def exampleEnv : Env :=
  { HomeDir := "/home/u", BuildConfigFromFlags := exampleLoad,
    parseInt := fun s => s.toInt?, HelpTemplate := "help", UsageTemplate := "usage" }

/-- The state of a process that has done nothing yet. -/
def initState : State :=
  { globals := { connectiontimeout := 0, host := "", kubeconfig := "", kubecontext := "",
                 kubenamespace := "" },
    heap := [],
    viper := { override := [], pflags := [], env := [], config := [], kvstore := [],
               defaults := [] },
    stdout := "", loads := [] }

/-! ## Auxiliary definitions for the statements

These are not functions of the program.  They name the values the theorems
speak about; `NewInitCmd_eq` proves that `initCommand` and `initResult` are
what `NewInitCmd` returns. -/

/-- The default of the `kubeconfig` flag: what `NewInitCmd` passes to the
first `StringVar`, in either branch of the test on the home directory. -/
def defaultKubeconfig (env : Env) : String :=
  if env.HomeDir != "" then filepathJoin [env.HomeDir, ".kube", "config"] else ""

/-- The five flags that `NewInitCmd` allocates. -/
def initFlags (kc h : String) : List Flag :=
  [{ Name := "kubeconfig", Shorthand := "", Usage := "absolute path to the kubeconfig file to use",
     Value := .stringValue .kubeconfig, DefValue := kc, Changed := false, NoOptDefVal := "" },
   { Name := "cygnus-connection-timeout", Shorthand := "t",
     Usage := "the duration (in seconds) Lyra will wait to establish a connection to Cygnus",
     Value := .intValue .connectiontimeout, DefValue := "300", Changed := false,
     NoOptDefVal := "" },
   { Name := "cygnus-host", Shorthand := "",
     Usage := "Address of Cygnus (probably a Kubernetes master)",
     Value := .stringValue .host, DefValue := h, Changed := false, NoOptDefVal := "" },
   { Name := "kube-namespace", Shorthand := "n", Usage := "Kubernetes namespace for Cygnus",
     Value := .stringValue .kubenamespace, DefValue := "kube-system", Changed := false,
     NoOptDefVal := "" },
   { Name := "kube-context", Shorthand := "", Usage := "Name of the kubeconfig context to use",
     Value := .stringValue .kubecontext, DefValue := "", Changed := false, NoOptDefVal := "" }]

/-- The persistent flag set that `NewInitCmd` builds when the heap had `n`
flags before. -/
def initFlagSet (n : Nat) : FlagSet :=
  { name := "init",
    formal := [("kubeconfig", n), ("cygnus-connection-timeout", n + 1), ("cygnus-host", n + 2),
               ("kube-namespace", n + 3), ("kube-context", n + 4)],
    shorthands := [('n', n + 3), ('t', n + 1)],
    args := [] }

/-- The command that `NewInitCmd` returns. -/
def initCommand (env : Env) (n : Nat) : Command :=
  { Use := "init", Example := "init", Short := "init", Long := "init",
    Run := some .runInit, SuggestFor := ["install"],
    pflags := some (initFlagSet n), flags := none,
    helpTemplate := env.HelpTemplate, usageTemplate := env.UsageTemplate }

/-- The state that `NewInitCmd` leaves when the kubeconfig loaded with host `h`. -/
def initResult (env : Env) (s : State) (h : String) : State :=
  let n := s.heap.length
  { globals := { connectiontimeout := 300, host := h, kubeconfig := defaultKubeconfig env,
                 kubecontext := "", kubenamespace := "kube-system" },
    heap := s.heap ++ initFlags (defaultKubeconfig env) h,
    viper := { s.viper with
      pflags := mapSet (mapSet (mapSet (mapSet (mapSet s.viper.pflags
        "cygnus-host" (n + 2)) "cygnus-connection-timeout" (n + 1)) "kubeconfig" n)
        "kube-context" (n + 4)) "kube-namespace" (n + 3) },
    stdout := s.stdout,
    loads := s.loads ++ [defaultKubeconfig env] }

/-- The function the spec describes for `getKubeHost`: the `Host` field of
the config on a successful load, a panic with the error otherwise. -/
def getKubeHostSpec (env : Env) (s : State) (kubeconfig : String) :
    Except String (String × State) :=
  match env.BuildConfigFromFlags "" kubeconfig with
  | .error err => .error err
  | .ok config => .ok (config.Host, { s with loads := s.loads ++ [kubeconfig] })

/-- The flag registered under `name` on the persistent flag set of `cmd`. -/
def flagNamed (cmd : Command) (s : State) (name : String) : Option Flag :=
  (cmd.PersistentFlags.Lookup name).bind (fun a => s.heap[a]?)

/-- The keys that `NewInitCmd` binds in the configuration store. -/
def boundKeys : List String :=
  ["cygnus-host", "cygnus-connection-timeout", "kubeconfig", "kube-context", "kube-namespace"]

/-- The five flags of `NewInitCmd` with given `Changed` marks. -/
def initFlagsWith (kc h : String) (b0 b1 b2 b3 b4 : Bool) : List Flag :=
  [{ Name := "kubeconfig", Shorthand := "", Usage := "absolute path to the kubeconfig file to use",
     Value := .stringValue .kubeconfig, DefValue := kc, Changed := b0, NoOptDefVal := "" },
   { Name := "cygnus-connection-timeout", Shorthand := "t",
     Usage := "the duration (in seconds) Lyra will wait to establish a connection to Cygnus",
     Value := .intValue .connectiontimeout, DefValue := "300", Changed := b1,
     NoOptDefVal := "" },
   { Name := "cygnus-host", Shorthand := "",
     Usage := "Address of Cygnus (probably a Kubernetes master)",
     Value := .stringValue .host, DefValue := h, Changed := b2, NoOptDefVal := "" },
   { Name := "kube-namespace", Shorthand := "n", Usage := "Kubernetes namespace for Cygnus",
     Value := .stringValue .kubenamespace, DefValue := "kube-system", Changed := b3,
     NoOptDefVal := "" },
   { Name := "kube-context", Shorthand := "", Usage := "Name of the kubeconfig context to use",
     Value := .stringValue .kubecontext, DefValue := "", Changed := b4, NoOptDefVal := "" }]

/-- What parsing leaves as it is after `NewInitCmd` ran from state `s`: the
heap holds the old flags and the five new ones, whose `Changed` marks may
have been set; the store, the output and the load record are untouched; and
as long as `cygnus-host` is not marked, the variable `host` holds `h`. -/
def ParseInv (env : Env) (s : State) (h : String) (st : State) : Prop :=
  st.viper = (initResult env s h).viper ∧ st.stdout = s.stdout ∧
  st.loads = (initResult env s h).loads ∧
  ∃ b0 b1 b2 b3 b4 : Bool,
    st.heap = s.heap ++ initFlagsWith (defaultKubeconfig env) h b0 b1 b2 b3 b4 ∧
    (b2 = false → st.globals.host = h)

/-- A state whose store has the host as a `Set` override. -/
def exampleStateA : State :=
  { initState with
    globals := { initState.globals with kubeconfig := "/a/config", kubenamespace := "ns-a" },
    viper := { initState.viper with override := [("cygnus-host", .str "https://a.example:6443")] } }

/-- A state whose store has the same host in its configuration file, and
other values for the other keys. -/
def exampleStateB : State :=
  { initState with
    viper := { initState.viper with
      config := [("kube-namespace", .str "ns-b"), ("cygnus-host", .str "https://a.example:6443"),
                 ("kubeconfig", .str "/b/config"), ("cygnus-connection-timeout", .int 7)] } }

/-- A command other than `init`. -/
def otherCommand : Command :=
  { Use := "other", Example := "", Short := "", Long := "", Run := none, SuggestFor := [],
    pflags := none, flags := none, helpTemplate := "", usageTemplate := "" }

set_option maxRecDepth 100000

/-! ## Lemmas on the embedding -/

theorem toLower_keys :
    toLower "cygnus-host" = "cygnus-host" ∧
    toLower "cygnus-connection-timeout" = "cygnus-connection-timeout" ∧
    toLower "kubeconfig" = "kubeconfig" ∧ toLower "kube-context" = "kube-context" ∧
    toLower "kube-namespace" = "kube-namespace" := by decide

theorem NewInitCmd_eq (env : Env) (s : State) :
    NewInitCmd env s =
      match env.BuildConfigFromFlags "" (defaultKubeconfig env) with
      | .error err => .error err
      | .ok c => .ok (initCommand env s.heap.length, initResult env s c.Host) := by
  have e1 : ("t" : String).utf8ByteSize = 1 := by decide
  have e2 : ("n" : String).utf8ByteSize = 1 := by decide
  have e3 : ("t" : String).data.headD ' ' = 't' := by decide
  have e4 : ("n" : String).data.headD ' ' = 'n' := by decide
  have e5 : toString (300 : Int) = "300" := by decide
  have e7 : List.lookup 'n' [('t', s.heap.length + 1)] = none := by
    simp [List.lookup]
  have e6 : String.mk (List.takeWhile (fun ch => ch != ' ') "init".data) = "init" := by decide
  obtain ⟨k1, k2, k3, k4, k5⟩ := toLower_keys
  have hkc : ∀ kc : String, defaultKubeconfig env = kc →
      (do
        let cmd : Command :=
          { Use := "init", Example := "init", Short := "init", Long := "init",
            Run := some .runInit, SuggestFor := ["install"],
            pflags := none, flags := none, helpTemplate := "", usageTemplate := "" }
        let (pf, s) ← cmd.PersistentFlags.StringVar s .kubeconfig "kubeconfig" kc
          "absolute path to the kubeconfig file to use"
        let cmd := { cmd with pflags := some pf }
        let (pf, s) ← cmd.PersistentFlags.IntVarP s .connectiontimeout "cygnus-connection-timeout" "t" 300
          "the duration (in seconds) Lyra will wait to establish a connection to Cygnus"
        let cmd := { cmd with pflags := some pf }
        let (h, s) ← getKubeHost env s s.globals.kubeconfig
        let (pf, s) ← cmd.PersistentFlags.StringVar s .host "cygnus-host" h
          "Address of Cygnus (probably a Kubernetes master)"
        let cmd := { cmd with pflags := some pf }
        let (pf, s) ← cmd.PersistentFlags.StringVarP s .kubenamespace "kube-namespace" "n" "kube-system"
          "Kubernetes namespace for Cygnus"
        let cmd := { cmd with pflags := some pf }
        let (pf, s) ← cmd.PersistentFlags.StringVar s .kubecontext "kube-context" ""
          "Name of the kubeconfig context to use"
        let cmd := { cmd with pflags := some pf }
        let cmd := { cmd with helpTemplate := env.HelpTemplate }
        let cmd := { cmd with usageTemplate := env.UsageTemplate }
        let s := BindPFlag s "cygnus-host" (cmd.PersistentFlags.Lookup "cygnus-host")
        let s := BindPFlag s "cygnus-connection-timeout"
          (cmd.PersistentFlags.Lookup "cygnus-connection-timeout")
        let s := BindPFlag s "kubeconfig" (cmd.PersistentFlags.Lookup "kubeconfig")
        let s := BindPFlag s "kube-context" (cmd.PersistentFlags.Lookup "kube-context")
        let s := BindPFlag s "kube-namespace" (cmd.PersistentFlags.Lookup "kube-namespace")
        return (cmd, s) : Except String (Command × State)) =
      match env.BuildConfigFromFlags "" (defaultKubeconfig env) with
      | .error err => .error err
      | .ok c => .ok (initCommand env s.heap.length, initResult env s c.Host) := by
    intro kc hk
    rw [hk]
    cases hl : env.BuildConfigFromFlags "" kc with
    | error err =>
      simp [Command.PersistentFlags, Command.Name, NewFlagSet, FlagSet.StringVar,
        FlagSet.StringVarP, FlagSet.VarP, FlagSet.AddFlag, FlagSet.IntVarP, getKubeHost,
        Globals.setStr, Globals.setInt, Globals.getStr, Globals.getInt, Value.valueString,
        bind, Except.bind, e1, e2, e3, e4, e5, e6, e7, List.lookup, mapSet, pure, Except.pure, hl]
    | ok c =>
      by_cases hc : c.Host = ""
      · simp [Command.PersistentFlags, Command.Name, NewFlagSet, FlagSet.StringVar,
          FlagSet.StringVarP, FlagSet.VarP, FlagSet.AddFlag, FlagSet.IntVarP, getKubeHost,
          Globals.setStr, Globals.setInt, Globals.getStr, Globals.getInt, Value.valueString,
          bind, Except.bind, e1, e2, e3, e4, e5, e6, e7, List.lookup, mapSet, pure, Except.pure, hl, hc,
          BindPFlag, Viper.BindPFlag, FlagSet.Lookup, k1, k2, k3, k4, k5,
          initCommand, initResult, initFlagSet, initFlags, hk]
      · simp [Command.PersistentFlags, Command.Name, NewFlagSet, FlagSet.StringVar,
          FlagSet.StringVarP, FlagSet.VarP, FlagSet.AddFlag, FlagSet.IntVarP, getKubeHost,
          Globals.setStr, Globals.setInt, Globals.getStr, Globals.getInt, Value.valueString,
          bind, Except.bind, e1, e2, e3, e4, e5, e6, e7, List.lookup, mapSet, pure, Except.pure, hl, hc,
          BindPFlag, Viper.BindPFlag, FlagSet.Lookup, k1, k2, k3, k4, k5,
          initCommand, initResult, initFlagSet, initFlags, hk]
  unfold NewInitCmd
  by_cases hh : env.HomeDir = ""
  · have := hkc "" (by simp [defaultKubeconfig, hh])
    simpa [hh] using this
  · have := hkc (filepathJoin [env.HomeDir, ".kube", "config"]) (by simp [defaultKubeconfig, hh])
    simpa [hh] using this

theorem lookup_mapSet {α β : Type} [BEq α] [LawfulBEq α] (m : List (α × β)) (k k' : α) (v : β) :
    (mapSet m k v).lookup k' = if k' == k then some v else m.lookup k' := by
  unfold mapSet
  by_cases h : k' == k
  · simp [List.lookup, h]
  · have hk : k' ≠ k := by simpa using h
    simp only [List.lookup, h]
    simp only [Bool.false_eq_true, if_false]
    induction m with
    | nil => simp
    | cons p m ih =>
      by_cases hp : p.1 == k
      · have : p.1 = k := by simpa using hp
        have hne : (k' == p.1) = false := by simpa [this] using hk
        simp [List.filter, hp, ih, List.lookup, hne]
      · simp [List.filter, hp, ih, List.lookup]

theorem heap_get (l1 l2 : List Flag) (i : Nat) : (l1 ++ l2)[l1.length + i]? = l2[i]? := by
  rw [List.getElem?_append_right (by omega)]
  congr 1
  omega

theorem heap_get0 (l1 l2 : List Flag) : (l1 ++ l2)[l1.length]? = l2[0]? := by
  have := heap_get l1 l2 0
  simpa using this

theorem heap_set (l1 l2 : List Flag) (i : Nat) (x : Flag) :
    (l1 ++ l2).set (l1.length + i) x = l1 ++ l2.set i x := by
  induction l1 with
  | nil => simp
  | cons a l ih =>
    simp only [List.cons_append, List.length_cons]
    rw [show l.length + 1 + i = (l.length + i) + 1 by omega, List.set_cons_succ, ih]

theorem NewInitCmd_ok_inv (env : Env) (s : State) (cmd : Command) (s1 : State)
    (h : NewInitCmd env s = .ok (cmd, s1)) :
    ∃ c : Config, env.BuildConfigFromFlags "" (defaultKubeconfig env) = .ok c ∧
      cmd = initCommand env s.heap.length ∧ s1 = initResult env s c.Host := by
  rw [NewInitCmd_eq] at h
  cases hl : env.BuildConfigFromFlags "" (defaultKubeconfig env) with
  | error err => simp [hl] at h
  | ok c =>
    simp [hl] at h
    exact ⟨c, rfl, h.1.symm, h.2.symm⟩

theorem flagNamed_init (env : Env) (s : State) (h : String) (name : String) :
    flagNamed (initCommand env s.heap.length) (initResult env s h) name =
      (initFlags (defaultKubeconfig env) h).find? (fun f => f.Name == name) := by
  unfold flagNamed
  simp only [initCommand, Command.PersistentFlags, FlagSet.Lookup, initFlagSet, initResult,
    List.lookup]
  by_cases h1 : name = "kubeconfig"
  · subst h1; simp only [beq_self_eq_true, Option.some_bind, heap_get0]; simp [initFlags, List.find?]
  by_cases h2 : name = "cygnus-connection-timeout"
  · subst h2; simp [heap_get, -List.getElem?_eq_getElem]; simp [initFlags, List.find?]
  by_cases h3 : name = "cygnus-host"
  · subst h3; simp [heap_get, -List.getElem?_eq_getElem]; simp [initFlags, List.find?]
  by_cases h4 : name = "kube-namespace"
  · subst h4; simp [heap_get, -List.getElem?_eq_getElem]; simp [initFlags, List.find?]
  by_cases h5 : name = "kube-context"
  · subst h5; simp [heap_get, -List.getElem?_eq_getElem]; simp [initFlags, List.find?]
  have e1 : (name == "kubeconfig") = false := by simpa using h1
  have e2 : (name == "cygnus-connection-timeout") = false := by simpa using h2
  have e3 : (name == "cygnus-host") = false := by simpa using h3
  have e4 : (name == "kube-namespace") = false := by simpa using h4
  have e5 : (name == "kube-context") = false := by simpa using h5
  have f1 : ("kubeconfig" == name) = false := by simpa using Ne.symm h1
  have f2 : ("cygnus-connection-timeout" == name) = false := by simpa using Ne.symm h2
  have f3 : ("cygnus-host" == name) = false := by simpa using Ne.symm h3
  have f4 : ("kube-namespace" == name) = false := by simpa using Ne.symm h4
  have f5 : ("kube-context" == name) = false := by simpa using Ne.symm h5
  simp [e1, e2, e3, e4, e5, f1, f2, f3, f4, f5, initFlags, List.find?]

theorem initResult_heap (env : Env) (s : State) (h : String) (i : Nat) (fl : Flag)
    (hi : (initFlags (defaultKubeconfig env) h)[i]? = some fl) :
    (initResult env s h).heap[s.heap.length + i]? = some fl := by
  simp only [initResult]
  rw [heap_get]
  exact hi

theorem parse_cygnus_host (env : Env) (s : State) (h X : String) :
    (initCommand env s.heap.length).PersistentFlags.Parse env (initResult env s h)
        ["--cygnus-host", X] =
      .ok (initFlagSet s.heap.length,
        { initResult env s h with
          globals := { (initResult env s h).globals with host := X },
          heap := s.heap ++ (initFlags (defaultKubeconfig env) h).set 2
            { Name := "cygnus-host", Shorthand := "",
              Usage := "Address of Cygnus (probably a Kubernetes master)",
              Value := .stringValue .host, DefValue := h, Changed := true,
              NoOptDefVal := "" } }) := by
  have d1 : "--cygnus-host".data = ['-', '-', 'c', 'y', 'g', 'n', 'u', 's', '-', 'h', 'o', 's', 't'] := rfl
  have d2 : String.mk ['c', 'y', 'g', 'n', 'u', 's', '-', 'h', 'o', 's', 't'] = "cygnus-host" := rfl
  have hg : (initResult env s h).heap[s.heap.length + 2]? = some
      { Name := "cygnus-host", Shorthand := "",
        Usage := "Address of Cygnus (probably a Kubernetes master)",
        Value := .stringValue .host, DefValue := h, Changed := false, NoOptDefVal := "" } :=
    initResult_heap env s h 2 _ rfl
  simp only [FlagSet.Parse, initCommand, Command.PersistentFlags, List.length_cons,
    List.length_nil, FlagSet.parseArgs, d1]
  simp [FlagSet.parseLongArg, splitEq, d2, initFlagSet, List.lookup, hg, FlagSet.Set,
    Value.Set, Except.map, FlagSet.parseArgs]
  simp [initResult, heap_set, Globals.setStr]

theorem ParseInv_init (env : Env) (s : State) (h : String) :
    ParseInv env s h (initResult env s h) :=
  ⟨rfl, rfl, rfl, false, false, false, false, false, rfl, fun _ => rfl⟩

theorem lookup_formal_cases (n : Nat) (name : String) (a : Addr)
    (h : (initFlagSet n).formal.lookup name = some a) :
    (name = "kubeconfig" ∧ a = n) ∨ (name = "cygnus-connection-timeout" ∧ a = n + 1) ∨
    (name = "cygnus-host" ∧ a = n + 2) ∨ (name = "kube-namespace" ∧ a = n + 3) ∨
    (name = "kube-context" ∧ a = n + 4) := by
  simp only [initFlagSet, List.lookup] at h
  split at h
  · rename_i h1; simp at h1 h; exact Or.inl ⟨h1, h.symm⟩
  split at h
  · rename_i h1; simp at h1 h; exact Or.inr (Or.inl ⟨h1, h.symm⟩)
  split at h
  · rename_i h1; simp at h1 h; exact Or.inr (Or.inr (Or.inl ⟨h1, h.symm⟩))
  split at h
  · rename_i h1; simp at h1 h; exact Or.inr (Or.inr (Or.inr (Or.inl ⟨h1, h.symm⟩)))
  split at h
  · rename_i h1; simp at h1 h; exact Or.inr (Or.inr (Or.inr (Or.inr ⟨h1, h.symm⟩)))
  · simp at h

theorem Set_preserves (env : Env) (s : State) (h : String) (f : FlagSet)
    (hf : f.formal = (initFlagSet s.heap.length).formal)
    (st st1 : State) (name value : String)
    (hinv : ParseInv env s h st) (hset : f.Set env st name value = .ok st1) :
    ParseInv env s h st1 := by
  obtain ⟨hv, hout, hl, b0, b1, b2, b3, b4, hheap, hhost⟩ := hinv
  unfold FlagSet.Set at hset
  rw [hf] at hset
  cases hlk : (initFlagSet s.heap.length).formal.lookup name with
  | none => simp [hlk] at hset
  | some a =>
    simp only [hlk] at hset
    rcases lookup_formal_cases _ _ _ hlk with ⟨_, rfl⟩ | ⟨_, rfl⟩ | ⟨_, rfl⟩ | ⟨_, rfl⟩ | ⟨_, rfl⟩
    · have hg : st.heap[s.heap.length]? = (initFlagsWith (defaultKubeconfig env) h b0 b1 b2 b3 b4)[0]? := by
        rw [hheap, heap_get0]
      simp only [hg, initFlagsWith, List.getElem?_cons_zero, Value.Set] at hset
      simp at hset
      subst hset
      refine ⟨hv, hout, hl, true, b1, b2, b3, b4, ?_, ?_⟩
      · have := heap_set s.heap (initFlagsWith (defaultKubeconfig env) h b0 b1 b2 b3 b4) 0
        simp only [Nat.add_zero] at this
        simp [hheap, this, initFlagsWith]
      · simpa [Globals.setStr] using hhost
    · have hg : st.heap[s.heap.length + 1]? = (initFlagsWith (defaultKubeconfig env) h b0 b1 b2 b3 b4)[1]? := by
        rw [hheap, heap_get]
      simp only [hg, initFlagsWith, List.getElem?_cons_succ, List.getElem?_cons_zero, Value.Set] at hset
      cases hp : env.parseInt value with
      | none => simp [hp] at hset
      | some v =>
        simp [hp] at hset
        subst hset
        refine ⟨hv, hout, hl, b0, true, b2, b3, b4, ?_, ?_⟩
        · simp [hheap, heap_set, initFlagsWith]
        · simpa [Globals.setInt] using hhost
    · have hg : st.heap[s.heap.length + 2]? = (initFlagsWith (defaultKubeconfig env) h b0 b1 b2 b3 b4)[2]? := by
        rw [hheap, heap_get]
      simp only [hg, initFlagsWith, List.getElem?_cons_succ, List.getElem?_cons_zero, Value.Set] at hset
      simp at hset
      subst hset
      refine ⟨hv, hout, hl, b0, b1, true, b3, b4, ?_, ?_⟩
      · simp [hheap, heap_set, initFlagsWith]
      · intro hc; simp at hc
    · have hg : st.heap[s.heap.length + 3]? = (initFlagsWith (defaultKubeconfig env) h b0 b1 b2 b3 b4)[3]? := by
        rw [hheap, heap_get]
      simp only [hg, initFlagsWith, List.getElem?_cons_succ, List.getElem?_cons_zero, Value.Set] at hset
      simp at hset
      subst hset
      refine ⟨hv, hout, hl, b0, b1, b2, true, b4, ?_, ?_⟩
      · simp [hheap, heap_set, initFlagsWith]
      · simpa [Globals.setStr] using hhost
    · have hg : st.heap[s.heap.length + 4]? = (initFlagsWith (defaultKubeconfig env) h b0 b1 b2 b3 b4)[4]? := by
        rw [hheap, heap_get]
      simp only [hg, initFlagsWith, List.getElem?_cons_succ, List.getElem?_cons_zero, Value.Set] at hset
      simp at hset
      subst hset
      refine ⟨hv, hout, hl, b0, b1, b2, b3, true, ?_, ?_⟩
      · simp [hheap, heap_set, initFlagsWith]
      · simpa [Globals.setStr] using hhost

theorem map_ok {α β : Type} (x : Except String α) (g : α → β) (y : β)
    (h : x.map g = .ok y) : ∃ z, x = .ok z ∧ g z = y := by
  cases x with
  | error e => simp [Except.map] at h
  | ok z => exact ⟨z, rfl, by simpa [Except.map] using h⟩

theorem parseLongArg_preserves (env : Env) (s : State) (h : String) (f : FlagSet)
    (hf : f.formal = (initFlagSet s.heap.length).formal)
    (st st1 : State) (arg : String) (a a1 : List String)
    (hinv : ParseInv env s h st)
    (hp : f.parseLongArg env st arg a = .ok (a1, st1)) :
    ParseInv env s h st1 ∧ a1.length ≤ a.length := by
  unfold FlagSet.parseLongArg at hp
  simp only [] at hp
  repeat' split at hp
  all_goals first
    | (obtain ⟨z, hz, he⟩ := map_ok _ _ _ hp
       simp only [Prod.mk.injEq] at he
       obtain ⟨rfl, rfl⟩ := he
       exact ⟨Set_preserves env s h f hf st z _ _ hinv hz, by simp⟩)
    | simp at hp

theorem parseSingleShortArg_preserves (env : Env) (s : State) (h : String) (f : FlagSet)
    (hf : f.formal = (initFlagSet s.heap.length).formal)
    (st st1 : State) (sh sh1 : List Char) (a a1 : List String)
    (hinv : ParseInv env s h st)
    (hp : f.parseSingleShortArg env st sh a = .ok (sh1, a1, st1)) :
    ParseInv env s h st1 ∧ a1.length ≤ a.length ∧ sh1.length ≤ sh.length - 1 := by
  unfold FlagSet.parseSingleShortArg at hp
  simp only [] at hp
  repeat' split at hp
  all_goals first
    | (obtain ⟨z, hz, he⟩ := map_ok _ _ _ hp
       simp only [Prod.mk.injEq] at he
       obtain ⟨rfl, rfl, rfl⟩ := he
       exact ⟨Set_preserves env s h f hf st z _ _ hinv hz, by simp, by simp⟩)
    | (simp only [Except.ok.injEq, Prod.mk.injEq] at hp
       obtain ⟨rfl, rfl, rfl⟩ := hp
       exact ⟨hinv, by simp, by simp⟩)
    | simp at hp

theorem parseShortLoop_preserves (env : Env) (s : State) (h : String) (f : FlagSet)
    (hf : f.formal = (initFlagSet s.heap.length).formal) (args : List String) :
    ∀ (fuel : Nat) (st : State) (sh : List Char) (a : List String) (a1 : List String)
      (st1 : State), ParseInv env s h st → a.length ≤ args.length →
      f.parseShortLoop env args fuel st sh a = .ok (a1, st1) →
      ParseInv env s h st1 ∧ a1.length ≤ args.length := by
  intro fuel
  induction fuel with
  | zero =>
    intro st sh a a1 st1 hinv ha hp
    cases sh with
    | nil =>
      simp only [FlagSet.parseShortLoop, Except.ok.injEq, Prod.mk.injEq] at hp
      obtain ⟨rfl, rfl⟩ := hp
      exact ⟨hinv, ha⟩
    | cons c cs => simp [FlagSet.parseShortLoop] at hp
  | succ fuel ih =>
    intro st sh a a1 st1 hinv ha hp
    cases sh with
    | nil =>
      simp only [FlagSet.parseShortLoop, Except.ok.injEq, Prod.mk.injEq] at hp
      obtain ⟨rfl, rfl⟩ := hp
      exact ⟨hinv, ha⟩
    | cons c cs =>
      simp only [FlagSet.parseShortLoop] at hp
      cases hs : f.parseSingleShortArg env st (c :: cs) args with
      | error e => simp [hs] at hp
      | ok r =>
        obtain ⟨sh2, a2, st2⟩ := r
        simp only [hs] at hp
        obtain ⟨hinv2, ha2, _⟩ := parseSingleShortArg_preserves env s h f hf st st2 _ _ _ _ hinv hs
        exact ih st2 sh2 a2 a1 st1 hinv2 ha2 hp

theorem parseArgs_preserves (env : Env) (s : State) (h : String) :
    ∀ (fuel : Nat) (f : FlagSet) (st : State) (args : List String) (f1 : FlagSet)
      (st1 : State), f.formal = (initFlagSet s.heap.length).formal →
      ParseInv env s h st → FlagSet.parseArgs env fuel f st args = .ok (f1, st1) →
      ParseInv env s h st1 := by
  intro fuel
  induction fuel with
  | zero =>
    intro f st args f1 st1 hf hinv hp
    cases args with
    | nil =>
      simp only [FlagSet.parseArgs, Except.ok.injEq, Prod.mk.injEq] at hp
      obtain ⟨rfl, rfl⟩ := hp
      exact hinv
    | cons c cs => simp [FlagSet.parseArgs] at hp
  | succ fuel ih =>
    intro f st args f1 st1 hf hinv hp
    cases args with
    | nil =>
      simp only [FlagSet.parseArgs, Except.ok.injEq, Prod.mk.injEq] at hp
      obtain ⟨rfl, rfl⟩ := hp
      exact hinv
    | cons c cs =>
      simp only [FlagSet.parseArgs] at hp
      split at hp
      · exact ih { f with args := f.args ++ [c] } st cs f1 st1 hf hinv hp
      · split at hp
        · split at hp
          · simp only [Except.ok.injEq, Prod.mk.injEq] at hp
            obtain ⟨_, rfl⟩ := hp
            exact hinv
          · cases hl : f.parseLongArg env st c cs with
            | error e => simp [hl] at hp
            | ok r =>
              obtain ⟨a2, st2⟩ := r
              simp only [hl] at hp
              exact ih f st2 a2 f1 st1 hf
                (parseLongArg_preserves env s h f hf st st2 c cs a2 hinv hl).1 hp
        · cases hl : f.parseShortArg env st c cs with
          | error e => simp [hl] at hp
          | ok r =>
            obtain ⟨a2, st2⟩ := r
            simp only [hl] at hp
            unfold FlagSet.parseShortArg at hl
            exact ih f st2 a2 f1 st1 hf
              (parseShortLoop_preserves env s h f hf cs _ st _ cs a2 st2 hinv (le_refl _) hl).1 hp

theorem Parse_preserves (env : Env) (s : State) (h : String) (args : List String)
    (f1 : FlagSet) (st1 : State)
    (hp : (initCommand env s.heap.length).PersistentFlags.Parse env (initResult env s h) args
      = .ok (f1, st1)) :
    ParseInv env s h st1 :=
  parseArgs_preserves env s h _ _ _ args f1 st1 rfl (ParseInv_init env s h) hp

theorem runInit_eq (s : State) (cmd : Command) (args : List String) :
    runInit s cmd args =
      { s with stdout := s.stdout ++ ("" ++ "\n") ++
          ("Cygnus (the Lyra server components) has been installed into a Kubernetes cluster at "
            ++ GetString s "cygnus-host" ++ "." ++ "\n") ++ ("" ++ "\n") ++
          ("For more information on using Lyra with Cygnus, see https://github.com/lyraproj/docs/cygnus.md"
            ++ "\n") } := by
  simp [runInit, Println, GetString, String.append_assoc]

theorem getKubeHost_ok (env : Env) (s : State) (kubeconfig : String) (c : Config)
    (hc : env.BuildConfigFromFlags "" kubeconfig = .ok c) :
    getKubeHost env s kubeconfig = .ok (c.Host, { s with loads := s.loads ++ [kubeconfig] }) := by
  unfold getKubeHost
  rw [hc]
  by_cases hh : c.Host = ""
  · simp [hh]
  · simp [hh]

theorem GetString_host_of_inv (env : Env) (s : State) (h : String) (st : State)
    (hinv : ParseInv env s h st)
    (h1 : s.viper.override.lookup "cygnus-host" = none)
    (h2 : s.viper.env.lookup "cygnus-host" = none)
    (h3 : s.viper.config.lookup "cygnus-host" = none)
    (h4 : s.viper.kvstore.lookup "cygnus-host" = none)
    (h5 : s.viper.defaults.lookup "cygnus-host" = none) :
    GetString st "cygnus-host" = st.globals.host ∧
    ((flagNamed (initCommand env s.heap.length) st "cygnus-host").map (fun f => f.Changed)
        = some false → st.globals.host = h) := by
  obtain ⟨hv, _, _, b0, b1, b2, b3, b4, hheap, hhost⟩ := hinv
  have hk := toLower_keys.1
  have hg : st.heap[s.heap.length + 2]? =
      (initFlagsWith (defaultKubeconfig env) h b0 b1 b2 b3 b4)[2]? := by
    rw [hheap, heap_get]
  constructor
  · unfold GetString Viper.find
    rw [hk, hv]
    simp only [initResult, h1, h2, h3, h4, h5, lookup_mapSet]
    simp only [beq_self_eq_true, if_true]
    simp [hg, initFlagsWith, Option.filter, flagValue, Value.valueString, Globals.getStr,
      castToString]
    cases b2 <;> simp [castToString]
  · intro hc
    apply hhost
    simp only [flagNamed, initCommand, Command.PersistentFlags, FlagSet.Lookup, initFlagSet,
      List.lookup] at hc
    simp [hg, initFlagsWith] at hc
    exact hc

/-! ## The claims -/

/-- Claim C1: for every state of the configuration store, every command object
and every argument list, `runInit` changes nothing but standard output, to
which it appends exactly four lines: the empty line, the installation
sentence with the value of `cygnus-host` between the literal text and the
full stop, the empty line, and the pointer to the documentation.  In
particular the output contains the literal text immediately followed by that
value. -/
theorem runInit_prints_four_lines (s : State) (cmd : Command) (args : List String) :
    runInit s cmd args =
      { s with stdout := s.stdout ++ ("" ++ "\n") ++
          ("Cygnus (the Lyra server components) has been installed into a Kubernetes cluster at "
            ++ GetString s "cygnus-host" ++ "." ++ "\n") ++ ("" ++ "\n") ++
          ("For more information on using Lyra with Cygnus, see https://github.com/lyraproj/docs/cygnus.md"
            ++ "\n") } ∧
    ∃ pre post : String, (runInit s cmd args).stdout =
      pre ++ ("Cygnus (the Lyra server components) has been installed into a Kubernetes cluster at "
        ++ GetString s "cygnus-host") ++ post := by
  refine ⟨runInit_eq s cmd args, s.stdout ++ "\n", "." ++ "\n" ++ ("" ++ "\n") ++
    ("For more information on using Lyra with Cygnus, see https://github.com/lyraproj/docs/cygnus.md"
      ++ "\n"), ?_⟩
  rw [runInit_eq]
  simp [String.append_assoc]

/-- Claim C2, evaluated on the code: the kubeconfig at `/tmp/kc` loads with
host `https://10.0.0.1:6443`, the one at the default path
`/home/u/.kube/config` with host `https://192.168.0.9:6443`.  `NewInitCmd`
followed by parsing `--kubeconfig /tmp/kc` and `runInit` stores `/tmp/kc` in
the variable `kubeconfig`, yet prints the host of the default path; the text
`cluster at https://10.0.0.1:6443.` is not in the output. -/
theorem init_ignores_kubeconfig_flag :
    exampleEnv.BuildConfigFromFlags "" "/tmp/kc" = .ok { Host := "https://10.0.0.1:6443" } ∧
    ∃ (cmd : Command) (s1 : State) (f : FlagSet) (s2 : State),
      NewInitCmd exampleEnv initState = .ok (cmd, s1) ∧
      cmd.PersistentFlags.Parse exampleEnv s1 ["--kubeconfig", "/tmp/kc"] = .ok (f, s2) ∧
      s2.globals.kubeconfig = "/tmp/kc" ∧
      GetString s2 "cygnus-host" = "https://192.168.0.9:6443" ∧
      (runInit s2 cmd f.args).stdout =
        "\nCygnus (the Lyra server components) has been installed into a Kubernetes cluster at https://192.168.0.9:6443.\n\nFor more information on using Lyra with Cygnus, see https://github.com/lyraproj/docs/cygnus.md\n" ∧
      ¬ ("cluster at https://10.0.0.1:6443.".data <:+: (runInit s2 cmd f.args).stdout.data) := by
  refine ⟨rfl, initCommand exampleEnv 0, initResult exampleEnv initState "https://192.168.0.9:6443",
    initFlagSet 0,
    { initResult exampleEnv initState "https://192.168.0.9:6443" with
      globals := { (initResult exampleEnv initState "https://192.168.0.9:6443").globals with
        kubeconfig := "/tmp/kc" },
      heap := initFlagsWith "/home/u/.kube/config" "https://192.168.0.9:6443"
        true false false false false }, ?_, ?_, ?_, ?_, ?_, ?_⟩
  · rfl
  · rfl
  · rfl
  · decide
  · rfl
  · decide

/-- Claim C3: when the kubeconfig at the path that the variable `kubeconfig`
holds at the registration of `cygnus-host` (the home directory joined with
`.kube` and `config`, or the empty string when there is no home directory)
loads with host `H`, `NewInitCmd` returns a command whose persistent flag
`cygnus-host` has the default value `H`, and the variable `host` holds `H`.
This holds for every `H`, so in particular for a non-empty one. -/
theorem cygnus_host_default_is_kube_host (env : Env) (s : State) (H : String)
    (hload : env.BuildConfigFromFlags ""
      (if env.HomeDir != "" then filepathJoin [env.HomeDir, ".kube", "config"] else "")
        = .ok { Host := H }) :
    ∃ (cmd : Command) (s1 : State) (a : Addr) (flag : Flag),
      NewInitCmd env s = .ok (cmd, s1) ∧
      cmd.PersistentFlags.Lookup "cygnus-host" = some a ∧
      s1.heap[a]? = some flag ∧ flag.Name = "cygnus-host" ∧ flag.DefValue = H ∧
      s1.globals.host = H := by
  have hd : (if env.HomeDir != "" then filepathJoin [env.HomeDir, ".kube", "config"] else "")
      = defaultKubeconfig env := rfl
  rw [hd] at hload
  refine ⟨initCommand env s.heap.length, initResult env s H, s.heap.length + 2, _, ?_, ?_,
    initResult_heap env s H 2 _ rfl, rfl, rfl, rfl⟩
  · rw [NewInitCmd_eq, hload]
  · simp [initCommand, Command.PersistentFlags, FlagSet.Lookup, initFlagSet, List.lookup]

/-- Witness of C3 in the environment with home directory `/home/u`. -/
theorem cygnus_host_default_is_kube_host_witness :
    exampleEnv.BuildConfigFromFlags ""
      (if exampleEnv.HomeDir != "" then filepathJoin [exampleEnv.HomeDir, ".kube", "config"]
        else "") = .ok { Host := "https://192.168.0.9:6443" } ∧
    ∃ (cmd : Command) (s1 : State) (a : Addr) (flag : Flag),
      NewInitCmd exampleEnv initState = .ok (cmd, s1) ∧
      cmd.PersistentFlags.Lookup "cygnus-host" = some a ∧
      s1.heap[a]? = some flag ∧ flag.Name = "cygnus-host" ∧
      flag.DefValue = "https://192.168.0.9:6443" ∧
      s1.globals.host = "https://192.168.0.9:6443" :=
  ⟨rfl, cygnus_host_default_is_kube_host exampleEnv initState "https://192.168.0.9:6443" rfl⟩

/-- Claim C4: after a successful `NewInitCmd`, whatever the home directory, the
flag `cygnus-connection-timeout` has default `300`, `kube-namespace` has
`kube-system`, `kube-context` has the empty string, and `kubeconfig` has the
home directory joined with `.kube` and `config` when the home directory is
not empty and the empty string otherwise; no flag is marked as changed, the
variables hold these defaults, and parsing an empty command line leaves the
state as it is. -/
theorem NewInitCmd_defaults (env : Env) (s : State) (cmd : Command) (s1 : State)
    (h : NewInitCmd env s = .ok (cmd, s1)) :
    ((flagNamed cmd s1 "cygnus-connection-timeout").map (fun f => (f.DefValue, f.Changed))
        = some ("300", false) ∧ s1.globals.connectiontimeout = 300) ∧
    ((flagNamed cmd s1 "kube-namespace").map (fun f => (f.DefValue, f.Changed))
        = some ("kube-system", false) ∧ s1.globals.kubenamespace = "kube-system") ∧
    ((flagNamed cmd s1 "kube-context").map (fun f => (f.DefValue, f.Changed))
        = some ("", false) ∧ s1.globals.kubecontext = "") ∧
    ((flagNamed cmd s1 "kubeconfig").map (fun f => (f.DefValue, f.Changed))
        = some (if env.HomeDir != "" then filepathJoin [env.HomeDir, ".kube", "config"] else "",
            false) ∧
      s1.globals.kubeconfig
        = if env.HomeDir != "" then filepathJoin [env.HomeDir, ".kube", "config"] else "") ∧
    ∃ f : FlagSet, cmd.PersistentFlags.Parse env s1 [] = .ok (f, s1) := by
  obtain ⟨c, _, rfl, rfl⟩ := NewInitCmd_ok_inv env s cmd s1 h
  have hd : (if env.HomeDir != "" then filepathJoin [env.HomeDir, ".kube", "config"] else "")
      = defaultKubeconfig env := rfl
  rw [hd]
  simp only [flagNamed_init]
  refine ⟨?_, ?_, ?_, ?_, ?_⟩
  · simp [initFlags, List.find?, initResult]
  · simp [initFlags, List.find?, initResult]
  · simp [initFlags, List.find?, initResult]
  · simp [initFlags, List.find?, initResult]
  · simp [FlagSet.Parse, FlagSet.parseArgs]

/-- Witness of C4 in the environment with home directory `/home/u`, where the
default of `kubeconfig` is `/home/u/.kube/config`. -/
theorem NewInitCmd_defaults_witness :
    NewInitCmd exampleEnv initState = .ok (initCommand exampleEnv 0,
      initResult exampleEnv initState "https://192.168.0.9:6443") ∧
    (flagNamed (initCommand exampleEnv 0)
      (initResult exampleEnv initState "https://192.168.0.9:6443") "kubeconfig").map
        (fun f => (f.DefValue, f.Changed)) = some ("/home/u/.kube/config", false) ∧
    (initResult exampleEnv initState "https://192.168.0.9:6443").globals.connectiontimeout
      = 300 :=
  ⟨rfl,
   (NewInitCmd_defaults exampleEnv initState _ _ rfl).2.2.2.1.1,
   (NewInitCmd_defaults exampleEnv initState (initCommand exampleEnv 0)
     (initResult exampleEnv initState "https://192.168.0.9:6443") rfl).1.2⟩

/-- Claim C5: `NewInitCmd` panics with an error exactly when loading the
kubeconfig at the default path returns that error, and it returns a command
exactly when the load succeeds, so the failed load is its only failure path;
`runInit` returns for every input, and only extends standard output. -/
theorem NewInitCmd_panics_iff_load_fails (env : Env) (s : State) :
    (∀ err : String, NewInitCmd env s = .error err ↔
      env.BuildConfigFromFlags ""
        (if env.HomeDir != "" then filepathJoin [env.HomeDir, ".kube", "config"] else "")
        = .error err) ∧
    ((∃ r : Command × State, NewInitCmd env s = .ok r) ↔
      ∃ c : Config, env.BuildConfigFromFlags ""
        (if env.HomeDir != "" then filepathJoin [env.HomeDir, ".kube", "config"] else "")
        = .ok c) ∧
    (∀ (st : State) (cmd : Command) (args : List String),
      ∃ out : String, runInit st cmd args = { st with stdout := st.stdout ++ out }) := by
  have hd : (if env.HomeDir != "" then filepathJoin [env.HomeDir, ".kube", "config"] else "")
      = defaultKubeconfig env := rfl
  rw [hd, NewInitCmd_eq]
  refine ⟨?_, ?_, ?_⟩
  · intro err
    cases hl : env.BuildConfigFromFlags "" (defaultKubeconfig env) with
    | error e => simp
    | ok c => simp
  · cases hl : env.BuildConfigFromFlags "" (defaultKubeconfig env) with
    | error e => simp
    | ok c => simp
  · intro st cmd args
    refine ⟨("" ++ "\n") ++
          ("Cygnus (the Lyra server components) has been installed into a Kubernetes cluster at "
            ++ GetString st "cygnus-host" ++ "." ++ "\n") ++ ("" ++ "\n") ++
          ("For more information on using Lyra with Cygnus, see https://github.com/lyraproj/docs/cygnus.md"
            ++ "\n"), ?_⟩
    rw [runInit_eq]
    simp [String.append_assoc]

/-- Claim C6: after a successful `NewInitCmd`, each of the keys `cygnus-host`,
`cygnus-connection-timeout`, `kubeconfig`, `kube-context` and
`kube-namespace` is bound in the configuration store to the flag that
`Lookup` finds under the same name on the persistent flag set, which is a
flag object of that name (never nil); the binding of every other key is as
it was before, so a store without flag bindings ends with exactly these five
keys. -/
theorem NewInitCmd_binds_five_keys (env : Env) (s : State) (cmd : Command) (s1 : State)
    (h : NewInitCmd env s = .ok (cmd, s1)) :
    (∀ k ∈ boundKeys, ∃ (a : Addr) (flag : Flag),
      cmd.PersistentFlags.Lookup k = some a ∧ s1.viper.pflags.lookup k = some a ∧
      s1.heap[a]? = some flag ∧ flag.Name = k) ∧
    (∀ k, k ∉ boundKeys → s1.viper.pflags.lookup k = s.viper.pflags.lookup k) ∧
    (s.viper.pflags = [] → (s1.viper.pflags.map Prod.fst).Perm boundKeys) := by
  obtain ⟨c, _, rfl, rfl⟩ := NewInitCmd_ok_inv env s cmd s1 h
  refine ⟨?_, ?_, ?_⟩
  · intro k hk
    simp only [boundKeys, List.mem_cons, List.mem_singleton, List.not_mem_nil, or_false] at hk
    rcases hk with rfl | rfl | rfl | rfl | rfl
    · refine ⟨s.heap.length + 2, _, ?_, ?_, initResult_heap env s c.Host 2 _ rfl, rfl⟩
      · simp [initCommand, Command.PersistentFlags, FlagSet.Lookup, initFlagSet, List.lookup]
      · simp [initResult, lookup_mapSet]
    · refine ⟨s.heap.length + 1, _, ?_, ?_, initResult_heap env s c.Host 1 _ rfl, rfl⟩
      · simp [initCommand, Command.PersistentFlags, FlagSet.Lookup, initFlagSet, List.lookup]
      · simp [initResult, lookup_mapSet]
    · refine ⟨s.heap.length + 0, _, ?_, ?_, initResult_heap env s c.Host 0 _ rfl, rfl⟩
      · simp [initCommand, Command.PersistentFlags, FlagSet.Lookup, initFlagSet, List.lookup]
      · simp [initResult, lookup_mapSet]
    · refine ⟨s.heap.length + 4, _, ?_, ?_, initResult_heap env s c.Host 4 _ rfl, rfl⟩
      · simp [initCommand, Command.PersistentFlags, FlagSet.Lookup, initFlagSet, List.lookup]
      · simp [initResult, lookup_mapSet]
    · refine ⟨s.heap.length + 3, _, ?_, ?_, initResult_heap env s c.Host 3 _ rfl, rfl⟩
      · simp [initCommand, Command.PersistentFlags, FlagSet.Lookup, initFlagSet, List.lookup]
      · simp [initResult, lookup_mapSet]
  · intro k hk
    simp only [boundKeys, List.mem_cons, List.mem_singleton, List.not_mem_nil, or_false,
      not_or] at hk
    obtain ⟨h1, h2, h3, h4, h5⟩ := hk
    simp [initResult, lookup_mapSet, h1, h2, h3, h4, h5]
  · intro he
    simp only [initResult, he, mapSet, List.filter, List.map]
    decide

/-- Witness of C6 in the environment with home directory `/home/u`: from the
empty store, the bound keys are the five keys. -/
theorem NewInitCmd_binds_five_keys_witness :
    NewInitCmd exampleEnv initState = .ok (initCommand exampleEnv 0,
      initResult exampleEnv initState "https://192.168.0.9:6443") ∧
    ((initResult exampleEnv initState "https://192.168.0.9:6443").viper.pflags.map
      Prod.fst).Perm boundKeys :=
  ⟨rfl, (NewInitCmd_binds_five_keys exampleEnv initState (initCommand exampleEnv 0)
    (initResult exampleEnv initState "https://192.168.0.9:6443") rfl).2.2 rfl⟩

/-- Claim C7: the command returned by `NewInitCmd` is named `init`, has no
local flags, and its persistent flag set holds exactly five flags, in this
order: `kubeconfig` (string, no shorthand), `cygnus-connection-timeout`
(int, shorthand `t`), `cygnus-host` (string, no shorthand), `kube-namespace`
(string, shorthand `n`) and `kube-context` (string, no shorthand); the names
are pairwise distinct, and the two shorthands `t` and `n` are the only ones
and lead to their flags. -/
theorem NewInitCmd_registers_five_flags (env : Env) (s : State) (cmd : Command) (s1 : State)
    (h : NewInitCmd env s = .ok (cmd, s1)) :
    cmd.Name = "init" ∧ cmd.flags = none ∧
    cmd.PersistentFlags.formal.map Prod.fst =
      ["kubeconfig", "cygnus-connection-timeout", "cygnus-host", "kube-namespace",
        "kube-context"] ∧
    (cmd.PersistentFlags.formal.map Prod.fst).Nodup ∧
    cmd.PersistentFlags.formal.map
        (fun p => (s1.heap[p.2]?).map (fun f => (f.Name, f.Value.valueType, f.Shorthand))) =
      [some ("kubeconfig", "string", ""), some ("cygnus-connection-timeout", "int", "t"),
        some ("cygnus-host", "string", ""), some ("kube-namespace", "string", "n"),
        some ("kube-context", "string", "")] ∧
    (cmd.PersistentFlags.shorthands.map Prod.fst).Perm ['t', 'n'] ∧
    cmd.PersistentFlags.shorthands.lookup 't' =
      cmd.PersistentFlags.Lookup "cygnus-connection-timeout" ∧
    cmd.PersistentFlags.shorthands.lookup 'n' = cmd.PersistentFlags.Lookup "kube-namespace" := by
  obtain ⟨c, _, rfl, rfl⟩ := NewInitCmd_ok_inv env s cmd s1 h
  refine ⟨rfl, rfl, ?_, ?_, ?_, ?_, ?_, ?_⟩
  · simp [initCommand, Command.PersistentFlags, initFlagSet]
  · simp [initCommand, Command.PersistentFlags, initFlagSet]
  · simp only [initCommand, Command.PersistentFlags, initFlagSet, initResult, List.map,
      heap_get, heap_get0]
    simp [initFlags, Value.valueType]
  · simp only [initCommand, Command.PersistentFlags, initFlagSet, List.map]
    decide
  · simp [initCommand, Command.PersistentFlags, initFlagSet, FlagSet.Lookup, List.lookup]
  · simp [initCommand, Command.PersistentFlags, initFlagSet, FlagSet.Lookup, List.lookup]

/-- Witness of C7 in the environment with home directory `/home/u`. -/
theorem NewInitCmd_registers_five_flags_witness :
    NewInitCmd exampleEnv initState = .ok (initCommand exampleEnv 0,
      initResult exampleEnv initState "https://192.168.0.9:6443") ∧
    (initCommand exampleEnv 0).Name = "init" ∧
    (initCommand exampleEnv 0).PersistentFlags.formal.map Prod.fst =
      ["kubeconfig", "cygnus-connection-timeout", "cygnus-host", "kube-namespace",
        "kube-context"] :=
  ⟨rfl, (NewInitCmd_registers_five_flags exampleEnv initState (initCommand exampleEnv 0)
    (initResult exampleEnv initState "https://192.168.0.9:6443") rfl).1,
   (NewInitCmd_registers_five_flags exampleEnv initState (initCommand exampleEnv 0)
    (initResult exampleEnv initState "https://192.168.0.9:6443") rfl).2.2.1⟩

/-- Claim C8: two runs of `runInit` in which the store gives the same value
for `cygnus-host` print the same text, whatever the two states, command
objects and argument lists are otherwise; `runInit` loads no kubeconfig, and
a successful `NewInitCmd` loads exactly one, the one at the default path. -/
theorem runInit_output_depends_only_on_host (sa sb : State) (ca cb : Command)
    (argsa argsb : List String)
    (h : GetString sa "cygnus-host" = GetString sb "cygnus-host") :
    (∃ out : String, (runInit sa ca argsa).stdout = sa.stdout ++ out ∧
      (runInit sb cb argsb).stdout = sb.stdout ++ out) ∧
    (runInit sa ca argsa).loads = sa.loads ∧ (runInit sb cb argsb).loads = sb.loads ∧
    ∀ (env : Env) (s : State) (cmd : Command) (s1 : State),
      NewInitCmd env s = .ok (cmd, s1) →
      s1.loads = s.loads ++
        [if env.HomeDir != "" then filepathJoin [env.HomeDir, ".kube", "config"] else ""] := by
  refine ⟨⟨("" ++ "\n") ++
      ("Cygnus (the Lyra server components) has been installed into a Kubernetes cluster at "
        ++ GetString sa "cygnus-host" ++ "." ++ "\n") ++ ("" ++ "\n") ++
      ("For more information on using Lyra with Cygnus, see https://github.com/lyraproj/docs/cygnus.md"
        ++ "\n"), ?_, ?_⟩, ?_, ?_, ?_⟩
  · rw [runInit_eq]; simp [String.append_assoc]
  · rw [runInit_eq, h]; simp [String.append_assoc]
  · rw [runInit_eq]
  · rw [runInit_eq]
  · intro env s cmd s1 hi
    obtain ⟨c, _, rfl, rfl⟩ := NewInitCmd_ok_inv env s cmd s1 hi
    rfl

/-- Witness of C8: one state has the host as an override, the other in the
configuration file, with different commands, arguments and other keys. -/
theorem runInit_output_depends_only_on_host_witness :
    GetString exampleStateA "cygnus-host" = GetString exampleStateB "cygnus-host" ∧
    ((∃ out : String, (runInit exampleStateA (initCommand exampleEnv 0) []).stdout
        = exampleStateA.stdout ++ out ∧
      (runInit exampleStateB otherCommand ["x", "y"]).stdout = exampleStateB.stdout ++ out) ∧
    (runInit exampleStateA (initCommand exampleEnv 0) []).loads = exampleStateA.loads ∧
    (runInit exampleStateB otherCommand ["x", "y"]).loads = exampleStateB.loads ∧
    ∀ (env : Env) (s : State) (cmd : Command) (s1 : State),
      NewInitCmd env s = .ok (cmd, s1) →
      s1.loads = s.loads ++
        [if env.HomeDir != "" then filepathJoin [env.HomeDir, ".kube", "config"] else ""]) :=
  ⟨by decide, runInit_output_depends_only_on_host exampleStateA exampleStateB
    (initCommand exampleEnv 0) otherCommand [] ["x", "y"] (by decide)⟩

/-- Claim C9: `getKubeHost` is the function that returns the `Host` field of
the loaded config, the empty one included, and panics with the error of a
failed load; the test on the host being non-empty changes nothing. -/
theorem getKubeHost_eq_spec (env : Env) (s : State) (kubeconfig : String) :
    getKubeHost env s kubeconfig = getKubeHostSpec env s kubeconfig := by
  unfold getKubeHost getKubeHostSpec
  cases env.BuildConfigFromFlags "" kubeconfig with
  | error err => rfl
  | ok c =>
    by_cases hc : c.Host = ""
    · simp [hc]
    · simp [hc]

/-- Claim C10: after a successful `NewInitCmd` from a state whose store has no
other source for `cygnus-host`: for every string `X`, parsing
`--cygnus-host X` succeeds and `runInit` then prints the sentence with `X`,
whatever host the kubeconfig has; and there is a host `h`, the one
`getKubeHost` returns for the default kubeconfig path, such that after every
successful parse that leaves the flag `cygnus-host` unchanged (the empty
command line is one) `runInit` prints the sentence with `h`. -/
theorem init_prints_flag_or_default_host (env : Env) (s : State) (cmd : Command) (s1 : State)
    (hinit : NewInitCmd env s = .ok (cmd, s1))
    (h1 : s.viper.override.lookup "cygnus-host" = none)
    (h2 : s.viper.env.lookup "cygnus-host" = none)
    (h3 : s.viper.config.lookup "cygnus-host" = none)
    (h4 : s.viper.kvstore.lookup "cygnus-host" = none)
    (h5 : s.viper.defaults.lookup "cygnus-host" = none) :
    (∀ X : String, ∃ (f : FlagSet) (s2 : State),
      cmd.PersistentFlags.Parse env s1 ["--cygnus-host", X] = .ok (f, s2) ∧
      GetString s2 "cygnus-host" = X ∧
      (runInit s2 cmd f.args).stdout = s.stdout ++ ("" ++ "\n") ++
        ("Cygnus (the Lyra server components) has been installed into a Kubernetes cluster at "
          ++ X ++ "." ++ "\n") ++ ("" ++ "\n") ++
        ("For more information on using Lyra with Cygnus, see https://github.com/lyraproj/docs/cygnus.md"
          ++ "\n")) ∧
    (∃ h : String,
      (∀ st : State, ∃ st1 : State,
        getKubeHost env st
          (if env.HomeDir != "" then filepathJoin [env.HomeDir, ".kube", "config"] else "")
          = .ok (h, st1)) ∧
      (∃ f : FlagSet, cmd.PersistentFlags.Parse env s1 [] = .ok (f, s1) ∧
        (flagNamed cmd s1 "cygnus-host").map (fun fl => fl.Changed) = some false) ∧
      ∀ (args : List String) (f : FlagSet) (s2 : State),
        cmd.PersistentFlags.Parse env s1 args = .ok (f, s2) →
        (flagNamed cmd s2 "cygnus-host").map (fun fl => fl.Changed) = some false →
        GetString s2 "cygnus-host" = h ∧
        (runInit s2 cmd f.args).stdout = s.stdout ++ ("" ++ "\n") ++
          ("Cygnus (the Lyra server components) has been installed into a Kubernetes cluster at "
            ++ h ++ "." ++ "\n") ++ ("" ++ "\n") ++
          ("For more information on using Lyra with Cygnus, see https://github.com/lyraproj/docs/cygnus.md"
            ++ "\n")) := by
  obtain ⟨c, hl, rfl, rfl⟩ := NewInitCmd_ok_inv env s cmd s1 hinit
  have hd : (if env.HomeDir != "" then filepathJoin [env.HomeDir, ".kube", "config"] else "")
      = defaultKubeconfig env := rfl
  refine ⟨?_, c.Host, ?_, ?_, ?_⟩
  · intro X
    have hp := parse_cygnus_host env s c.Host X
    refine ⟨_, _, hp, ?_, ?_⟩
    · have hinv := Parse_preserves env s c.Host _ _ _ hp
      rw [(GetString_host_of_inv env s c.Host _ hinv h1 h2 h3 h4 h5).1]
    · have hinv := Parse_preserves env s c.Host _ _ _ hp
      rw [runInit_eq, (GetString_host_of_inv env s c.Host _ hinv h1 h2 h3 h4 h5).1]
      simp [initResult]
  · intro st
    rw [hd]
    exact ⟨_, getKubeHost_ok env st _ c hl⟩
  · refine ⟨initFlagSet s.heap.length, ?_, ?_⟩
    · simp [FlagSet.Parse, FlagSet.parseArgs, initCommand, Command.PersistentFlags, initFlagSet]
    · rw [flagNamed_init]
      simp [initFlags, List.find?]
  · intro args f s2 hp hc
    have hinv := Parse_preserves env s c.Host _ _ _ hp
    have hg := GetString_host_of_inv env s c.Host _ hinv h1 h2 h3 h4 h5
    have hh : GetString s2 "cygnus-host" = c.Host := by rw [hg.1]; exact hg.2 hc
    refine ⟨hh, ?_⟩
    rw [runInit_eq, hh]
    simp [hinv.2.1]

/-- Witness of C10 in the environment with home directory `/home/u`: with
`--cygnus-host https://c.example:443` the store gives that address. -/
theorem init_prints_flag_or_default_host_witness :
    NewInitCmd exampleEnv initState = .ok (initCommand exampleEnv 0,
      initResult exampleEnv initState "https://192.168.0.9:6443") ∧
    initState.viper.override.lookup "cygnus-host" = none ∧
    initState.viper.env.lookup "cygnus-host" = none ∧
    initState.viper.config.lookup "cygnus-host" = none ∧
    initState.viper.kvstore.lookup "cygnus-host" = none ∧
    initState.viper.defaults.lookup "cygnus-host" = none ∧
    ∃ (f : FlagSet) (s2 : State),
      (initCommand exampleEnv 0).PersistentFlags.Parse exampleEnv
        (initResult exampleEnv initState "https://192.168.0.9:6443")
        ["--cygnus-host", "https://c.example:443"] = .ok (f, s2) ∧
      GetString s2 "cygnus-host" = "https://c.example:443" ∧
      (runInit s2 (initCommand exampleEnv 0) f.args).stdout = initState.stdout ++ ("" ++ "\n") ++
        ("Cygnus (the Lyra server components) has been installed into a Kubernetes cluster at "
          ++ "https://c.example:443" ++ "." ++ "\n") ++ ("" ++ "\n") ++
        ("For more information on using Lyra with Cygnus, see https://github.com/lyraproj/docs/cygnus.md"
          ++ "\n") :=
  ⟨rfl, rfl, rfl, rfl, rfl, rfl,
   (init_prints_flag_or_default_host exampleEnv initState (initCommand exampleEnv 0)
     (initResult exampleEnv initState "https://192.168.0.9:6443") rfl rfl rfl rfl rfl rfl).1
     "https://c.example:443"⟩

end Lyra
